import Mathlib

/-!
Verification development for the EI-eligibility backend (src/server.js).

The server resolves a postal code to its EI economic region and that region's
statistics, caching both in two PostgreSQL tables with a 30-day staleness
policy. This file gives a shallow embedding of the core orchestration:

* `isDataStale`, `THIRTY_DAYS_IN_MS` — the freshness policy (server.js:12,52-54);
* `scrapeRegionTable` — the cheerio row walk inside `scrapeEconomicRegion`
  (server.js:68-78), with the page modelled as a list of rows of cell texts;
* `getEconomicRegionData` — the region cache-or-fetch helper (server.js:152-198);
* `scrapeHandler` / `scrapeMissPath` — the `/scrape` route handler
  (server.js:86-149), with the postal page modelled as a list of rows whose
  cells 0-3 are plain texts and whose cell 4 holds an anchor (text + optional
  href, `none` standing for a missing anchor, i.e. `undefined` in JS);
* the PostgreSQL tables are modelled as association lists keyed by the
  primary-key column, with `upsertBy` giving the
  `INSERT ... ON CONFLICT ... DO UPDATE SET <all non-key columns>` semantics;
* the JSON responses are modelled as ordered key/value lists (`JObj`), with
  SQL NULL rendered as `Prim.null` (present in the serialized object) and a JS
  `undefined` field omitted, matching `JSON.stringify`;
* each handler run also produces a trace of the I/O operations it initiates,
  in program order (`Ev`). The postal upsert at server.js:127 is issued with
  neither `await` nor a callback, so the handler itself never observes its
  completion; the trace therefore contains `Ev.upsertPostalIssued` and the
  constructor `Ev.upsertPostalCompleted` is never emitted by the embedded
  code (in Node, the query completion callback can only run on a later
  event-loop tick, after the synchronous continuation has already run).

External effects (the database read outcomes, the two remote pages) are
supplied by a `World` oracle so that every run is a pure, executable function.
-/

set_option maxRecDepth 20000

/-- server.js:10. -/
def BASE_URL : String := "https://srv129.services.gc.ca/ei_regions/eng/"

/-- server.js:11. -/
def POSTAL_CODE_ENDPOINT : String := "postalcode.aspx?_code="

/-- server.js:12. 30 days in milliseconds. -/
def THIRTY_DAYS_IN_MS : Int := 30 * 24 * 60 * 60 * 1000

/-- server.js:52-54. True iff the retrieval timestamp is strictly more than
30 days before `now` (both in milliseconds). -/
def isDataStale (now retrievalDate : Int) : Bool :=
  decide (now - retrievalDate > THIRTY_DAYS_IN_MS)

/-- A row of the `postal_code_data` table (server.js:26-34).
`ei_economic_region_url` is nullable: the scraped href can be `undefined`. -/
structure PostalRow where
  postal_code : String
  census_subdivision_name : String
  common_name : String
  census_division_name : String
  ei_economic_region_name : String
  ei_economic_region_url : Option String
  date_retrieved : Int
deriving DecidableEq, Repr

/-- A row of the `economic_region_data` table (server.js:38-48). The eight
data columns are nullable: when the scraped region table has no rows the
upsert parameters are `undefined` and PostgreSQL stores NULL. -/
structure RegionRow where
  economic_region_name : String
  province : Option String
  economic_region_code : Option String
  unemployment_rate : Option String
  insured_hours_required : Option String
  min_weeks_payable : Option String
  max_weeks_payable : Option String
  best_weeks_required : Option String
  date_retrieved : Int
deriving DecidableEq, Repr

/-- `SELECT * FROM t WHERE key = k` on a table modelled as a list of rows. -/
def findBy {α : Type} (key : α → String) (s : List α) (k : String) : Option α :=
  s.find? (fun x => key x == k)

/-- `INSERT ... ON CONFLICT (key) DO UPDATE SET <every non-key column> =
EXCLUDED.<column>`: if a row with the same key exists it is replaced wholesale
(the key column is equal anyway), otherwise the new row is appended. -/
def upsertBy {α : Type} (key : α → String) (s : List α) (a : α) : List α :=
  if s.any (fun x => key x == key a) then
    s.map (fun x => if key x == key a then a else x)
  else s ++ [a]

/-- Key uniqueness of a table: no two rows share a key. -/
def noDupBy {α : Type} (key : α → String) : List α → Bool
  | [] => true
  | x :: t => (!t.any (fun y => key y == key x)) && noDupBy key t

def postalKey (r : PostalRow) : String := r.postal_code

def regionKey (r : RegionRow) : String := r.economic_region_name

def upsertPostal (s : List PostalRow) (r : PostalRow) : List PostalRow :=
  upsertBy postalKey s r

def upsertRegion (s : List RegionRow) (r : RegionRow) : List RegionRow :=
  upsertBy regionKey s r

/-- One data row of the postal detail page's `#table`: cells 0-3 are plain
text cells, cell 4 holds an anchor whose text is the region name and whose
`href` (possibly absent) is the region locator (server.js:113-122). -/
structure PostalCells where
  cell0 : String
  cell1 : String
  cell2 : String
  cell3 : String
  anchorText : String
  anchorHref : Option String
deriving DecidableEq, Repr

/-- The object built at server.js:116-124 from the first row of the postal
page. On an empty selection cheerio's `.text()` returns `""` and
`.attr` returns `undefined`, so a page with no rows yields empty fields. -/
structure PostalData where
  PostalCode : String
  CensusSubdivisionName : String
  CommonName : String
  CensusDivisionName : String
  EIEconomicRegionName : String
  EIEconomicRegionURL : Option String
  date_retrieved : Int
deriving DecidableEq, Repr

/-- Whitespace for JS `String.prototype.trim`. -/
def isJsWhitespace (c : Char) : Bool :=
  c = ' ' || c = '\t' || c = '\n' || c = '\r' || c = '\x0b' || c = '\x0c'

/-- JS `String.prototype.trim`: drop leading and trailing whitespace. -/
def jsTrim (s : String) : String :=
  String.mk (((s.data.dropWhile isJsWhitespace).reverse.dropWhile isJsWhitespace).reverse)

/-- server.js:113-124: take the first row of the table (empty texts and an
absent href when the table has no rows) and trim each cell text. -/
def extractPostalData (page : List PostalCells) (now : Int) : PostalData :=
  match page with
  | [] =>
    { PostalCode := "", CensusSubdivisionName := "", CommonName := "",
      CensusDivisionName := "", EIEconomicRegionName := "",
      EIEconomicRegionURL := none, date_retrieved := now }
  | r :: _ =>
    { PostalCode := jsTrim r.cell0, CensusSubdivisionName := jsTrim r.cell1,
      CommonName := jsTrim r.cell2, CensusDivisionName := jsTrim r.cell3,
      EIEconomicRegionName := jsTrim r.anchorText,
      EIEconomicRegionURL := r.anchorHref, date_retrieved := now }

/-- The working object `tableData` of `scrapeEconomicRegion`
(server.js:66-78): starts as the empty object `\x7b\x7d`, each field is
`undefined` (`none`) until some row of the walk sets it. -/
structure RegionData where
  Province : Option String
  EconomicRegionCode : Option String
  EconomicRegionName : Option String
  UnemploymentRate : Option String
  InsuredHoursRequired : Option String
  MinWeeksPayable : Option String
  MaxWeeksPayable : Option String
  BestWeeksRequired : Option String
deriving DecidableEq, Repr

def emptyRegionData : RegionData :=
  { Province := none, EconomicRegionCode := none, EconomicRegionName := none,
    UnemploymentRate := none, InsuredHoursRequired := none,
    MinWeeksPayable := none, MaxWeeksPayable := none, BestWeeksRequired := none }

/-- Text of cell `k` of a row: cheerio yields `""` for a missing cell, and
the code trims every cell text (server.js:70-77). -/
def cellText (cells : List String) (k : Nat) : String := jsTrim (cells.getD k "")

/-- The body of the `.each` callback at server.js:68-78: every iteration
overwrites all eight working fields with the current row's cells, so the
accumulator is ignored. -/
def regionRowStep (_acc : RegionData) (cells : List String) : RegionData :=
  { Province := some (cellText cells 0),
    EconomicRegionCode := some (cellText cells 1),
    EconomicRegionName := some (cellText cells 2),
    UnemploymentRate := some (cellText cells 3),
    InsuredHoursRequired := some (cellText cells 4),
    MinWeeksPayable := some (cellText cells 5),
    MaxWeeksPayable := some (cellText cells 6),
    BestWeeksRequired := some (cellText cells 7) }

/-- The full `#regions tbody tr` walk of `scrapeEconomicRegion`
(server.js:68-78): fold the overwriting step over all rows in order. -/
def scrapeRegionTable (rows : List (List String)) : RegionData :=
  rows.foldl regionRowStep emptyRegionData

/-- JS `String.prototype.replace(" ", "")` with a string pattern: remove only
the FIRST occurrence of a space character (server.js:106,110). -/
def stripFirstSpaceAux : List Char → List Char
  | [] => []
  | c :: cs => if c = ' ' then cs else c :: stripFirstSpaceAux cs

def stripFirstSpace (s : String) : String := String.mk (stripFirstSpaceAux s.data)

/-- The postal-page URL built at server.js:110. -/
def missFetchUrl (pc : String) : String :=
  BASE_URL ++ POSTAL_CODE_ENDPOINT ++ stripFirstSpace pc

/-- JS template-literal interpolation renders `undefined` as the text
"undefined", so a missing href still produces a URL (server.js:58). -/
def urlFragment : Option String → String
  | some u => u
  | none => "undefined"

/-- The region-page URL built at server.js:58. -/
def regionFetchUrl (u : Option String) : String := BASE_URL ++ urlFragment u

/-- The I/O operations a handler run initiates, in program order.
`upsertPostalCompleted` is part of the vocabulary but is never emitted by the
embedded handler: the upsert at server.js:127 is issued with neither `await`
nor a callback, and in Node its completion callback can only run on a later
event-loop tick, after the handler has already moved on. -/
inductive Ev where
  | readPostalStore (key : String)
  | remoteFetchPostal (url : String)
  | upsertPostalIssued (key : String)
  | upsertPostalCompleted (key : String)
  | regionLookupInvoked (name : String)
  | readRegionStore (key : String)
  | remoteFetchRegion (url : String)
  | upsertRegionIssued (key : String)
deriving DecidableEq, Repr

def Ev.isRemoteFetchPostal : Ev → Bool
  | .remoteFetchPostal _ => true
  | _ => false

def Ev.isRemoteFetchRegion : Ev → Bool
  | .remoteFetchRegion _ => true
  | _ => false

def Ev.isUpsertPostalIssued : Ev → Bool
  | .upsertPostalIssued _ => true
  | _ => false

def Ev.isUpsertPostalCompleted : Ev → Bool
  | .upsertPostalCompleted _ => true
  | _ => false

def Ev.isRegionLookupInvoked : Ev → Bool
  | .regionLookupInvoked _ => true
  | _ => false

/-- Events that can come out of `getEconomicRegionData`. -/
def Ev.isRegionSide : Ev → Bool
  | .readRegionStore _ => true
  | .remoteFetchRegion _ => true
  | .upsertRegionIssued _ => true
  | _ => false

/-- A JSON leaf value of the serialized response: a string, a timestamp
(both `Date` objects and TIMESTAMPTZ values serialize as time strings; we
keep the underlying milliseconds), or SQL NULL. -/
inductive Prim where
  | str (v : String)
  | time (v : Int)
  | null
deriving DecidableEq, Repr

/-- A serialized JSON object: key/value pairs in insertion order.
A JS `undefined` field is omitted by `JSON.stringify`; a SQL NULL read back
from the store serializes as `null` and is present. -/
abbrev JObj := List (String × Prim)

def optPrim : Option String → Prim
  | some s => .str s
  | none => .null

def optField (k : String) : Option String → JObj
  | some v => [(k, Prim.str v)]
  | none => []

/-- Serialization of a stored postal row (cache-hit path, server.js:100-103):
the pg row object carries the database column names in column order. -/
def rowToJObj (r : PostalRow) : JObj :=
  [("postal_code", Prim.str r.postal_code),
   ("census_subdivision_name", Prim.str r.census_subdivision_name),
   ("common_name", Prim.str r.common_name),
   ("census_division_name", Prim.str r.census_division_name),
   ("ei_economic_region_name", Prim.str r.ei_economic_region_name),
   ("ei_economic_region_url", optPrim r.ei_economic_region_url),
   ("date_retrieved", Prim.time r.date_retrieved)]

/-- Serialization of the freshly scraped postal object (miss path,
server.js:116-124): CamelCase scraped field names; an `undefined` href is
omitted. -/
def postalDataToJObj (d : PostalData) : JObj :=
  [("PostalCode", Prim.str d.PostalCode),
   ("CensusSubdivisionName", Prim.str d.CensusSubdivisionName),
   ("CommonName", Prim.str d.CommonName),
   ("CensusDivisionName", Prim.str d.CensusDivisionName),
   ("EIEconomicRegionName", Prim.str d.EIEconomicRegionName)]
  ++ optField "EIEconomicRegionURL" d.EIEconomicRegionURL
  ++ [("date_retrieved", Prim.time d.date_retrieved)]

/-- Serialization of a stored region row (region cache hit,
server.js:164-167): database column names. -/
def regionRowToJObj (r : RegionRow) : JObj :=
  [("economic_region_name", Prim.str r.economic_region_name),
   ("province", optPrim r.province),
   ("economic_region_code", optPrim r.economic_region_code),
   ("unemployment_rate", optPrim r.unemployment_rate),
   ("insured_hours_required", optPrim r.insured_hours_required),
   ("min_weeks_payable", optPrim r.min_weeks_payable),
   ("max_weeks_payable", optPrim r.max_weeks_payable),
   ("best_weeks_required", optPrim r.best_weeks_required),
   ("date_retrieved", Prim.time r.date_retrieved)]

/-- Serialization of the freshly scraped region object
(server.js:172-173,191): CamelCase scraped field names, unset fields omitted,
`date_retrieved` appended last. -/
def regionDataToJObj (d : RegionData) (date : Int) : JObj :=
  optField "Province" d.Province
  ++ optField "EconomicRegionCode" d.EconomicRegionCode
  ++ optField "EconomicRegionName" d.EconomicRegionName
  ++ optField "UnemploymentRate" d.UnemploymentRate
  ++ optField "InsuredHoursRequired" d.InsuredHoursRequired
  ++ optField "MinWeeksPayable" d.MinWeeksPayable
  ++ optField "MaxWeeksPayable" d.MaxWeeksPayable
  ++ optField "BestWeeksRequired" d.BestWeeksRequired
  ++ [("date_retrieved", Prim.time date)]

/-- What `getEconomicRegionData` resolves with: a cached DB row or the
freshly scraped object. -/
inductive RegionResult where
  | cached (r : RegionRow)
  | fresh (d : RegionData) (date : Int)
deriving DecidableEq, Repr

def regionResultToJObj : RegionResult → JObj
  | .cached r => regionRowToJObj r
  | .fresh d date => regionDataToJObj d date

/-- Rejection values of `getEconomicRegionData`: the pg error object from the
store read (server.js:156-159) or the axios error from the remote fetch
(server.js:192-195). -/
inductive RegionErr where
  | storeErr
  | fetchErr
deriving DecidableEq, Repr

/-- The oracle for one handler run: the current table contents, whether each
`SELECT` errors, what each remote fetch returns (a transport error or the
parsed page), and the current time in milliseconds. -/
structure World where
  postal : List PostalRow
  region : List RegionRow
  postalReadErr : Bool
  regionReadErr : Bool
  postalPage : Except Unit (List PostalCells)
  regionPage : Except Unit (List (List String))
  now : Int
deriving Repr

/-- Outcome of `getEconomicRegionData`: the settled promise, the region table
after the run, and the trace of initiated operations. -/
structure RegionOut where
  result : Except RegionErr RegionResult
  store : List RegionRow
  trace : List Ev
deriving Repr

/-- The row written by the region upsert (server.js:176-189): keyed by the
`regionName` argument (the scraped `EconomicRegionName` is NOT the key), all
data columns from the scraped object, timestamp from server.js:173. -/
def regionRowFromData (name : String) (d : RegionData) (now : Int) : RegionRow :=
  { economic_region_name := name, province := d.Province,
    economic_region_code := d.EconomicRegionCode,
    unemployment_rate := d.UnemploymentRate,
    insured_hours_required := d.InsuredHoursRequired,
    min_weeks_payable := d.MinWeeksPayable,
    max_weeks_payable := d.MaxWeeksPayable,
    best_weeks_required := d.BestWeeksRequired, date_retrieved := now }

/-- The miss/stale branch of `getEconomicRegionData` (server.js:169-195):
fetch the region page (rejecting with the axios error on transport failure),
walk the table, stamp `date_retrieved = now`, issue the upsert
(fire-and-forget) and resolve with the scraped object. An empty table is NOT
an error: the walk just leaves every field unset and the run still resolves. -/
def regionFetchBranch (w : World) (regionName : String) (regionURL : Option String) : RegionOut :=
  match w.regionPage with
  | .error _ =>
    { result := .error .fetchErr, store := w.region,
      trace := [.readRegionStore regionName,
                .remoteFetchRegion (regionFetchUrl regionURL)] }
  | .ok rows =>
    { result := .ok (.fresh (scrapeRegionTable rows) w.now),
      store := upsertRegion w.region
        (regionRowFromData regionName (scrapeRegionTable rows) w.now),
      trace := [.readRegionStore regionName,
                .remoteFetchRegion (regionFetchUrl regionURL),
                .upsertRegionIssued regionName] }

/-- server.js:152-198. Read the region row by name; reject with the pg error
if the read fails; return the stored row if found and fresh; otherwise fetch,
scrape, upsert and return the fresh object. -/
def getEconomicRegionData (w : World) (regionName : String) (regionURL : Option String) : RegionOut :=
  if w.regionReadErr then
    { result := .error .storeErr, store := w.region,
      trace := [.readRegionStore regionName] }
  else
    match findBy regionKey w.region regionName with
    | some row =>
      if isDataStale w.now row.date_retrieved then
        regionFetchBranch w regionName regionURL
      else
        { result := .ok (.cached row), store := w.region,
          trace := [.readRegionStore regionName] }
    | none => regionFetchBranch w regionName regionURL

/-- What the handler sends back on `res`: a JSON `data` payload (the postal
object with the region detail nested under `EconomicRegionDetails`), one of
the two 500 error bodies, or — when an exception escapes the handler outside
any try/catch — no response at all (the request hangs). -/
structure Payload where
  postal : JObj
  region : JObj
deriving DecidableEq, Repr

inductive Response where
  | ok (payload : Payload)
  | dbError
  | scrapeError
  | noResponse
deriving DecidableEq, Repr

/-- Outcome of one `/scrape` request: the response, both tables after the
run, and the trace of initiated operations in program order. -/
structure HandlerResult where
  response : Response
  postal : List PostalRow
  region : List RegionRow
  trace : List Ev
deriving Repr

/-- The postal part of an `ok` payload, if any. -/
def HandlerResult.postalPart (h : HandlerResult) : Option JObj :=
  match h.response with
  | .ok p => some p.postal
  | _ => none

/-- The row written by the postal upsert (server.js:127-138): the key is the
RAW query-string `postalCode` (parameter `$1` at server.js:137), not the
scraped `PostalCode` and not a whitespace-normalized form. -/
def postalRowFromInput (pc : String) (d : PostalData) : PostalRow :=
  { postal_code := pc, census_subdivision_name := d.CensusSubdivisionName,
    common_name := d.CommonName, census_division_name := d.CensusDivisionName,
    ei_economic_region_name := d.EIEconomicRegionName,
    ei_economic_region_url := d.EIEconomicRegionURL,
    date_retrieved := d.date_retrieved }

/-- The miss/stale path of the `/scrape` handler (server.js:106-147): fetch
the postal page (URL with only the first space removed), extract the first
row, stamp `date_retrieved = new Date()`, issue the upsert (fire-and-forget,
keyed by the raw input), then await the region lookup. Everything is inside
the try/catch, so an axios failure or a region rejection yields the 500
"Error scraping postal code data" response — but a region failure happens
AFTER the postal upsert was already issued. -/
def scrapeMissPath (w : World) (pc : String) : HandlerResult :=
  match w.postalPage with
  | .error _ =>
    { response := .scrapeError, postal := w.postal, region := w.region,
      trace := [.readPostalStore pc, .remoteFetchPostal (missFetchUrl pc)] }
  | .ok page =>
    let d := extractPostalData page w.now
    let newPostal := upsertPostal w.postal (postalRowFromInput pc d)
    let ro := getEconomicRegionData w d.EIEconomicRegionName d.EIEconomicRegionURL
    match ro.result with
    | .error _ =>
      { response := .scrapeError, postal := newPostal, region := ro.store,
        trace := [.readPostalStore pc, .remoteFetchPostal (missFetchUrl pc),
                  .upsertPostalIssued pc,
                  .regionLookupInvoked d.EIEconomicRegionName] ++ ro.trace }
    | .ok rr =>
      { response := .ok { postal := postalDataToJObj d,
                          region := regionResultToJObj rr },
        postal := newPostal, region := ro.store,
        trace := [.readPostalStore pc, .remoteFetchPostal (missFetchUrl pc),
                  .upsertPostalIssued pc,
                  .regionLookupInvoked d.EIEconomicRegionName] ++ ro.trace }

/-- The `/scrape` handler (server.js:86-149). The store read is keyed by the
RAW `postalCode` (server.js:91). On a fresh hit the stored row is returned
with the region detail attached — but the `await` at server.js:102 sits
OUTSIDE the try/catch, so a region rejection there is an unhandled promise
rejection: no response is ever sent. On a miss or stale hit control goes to
`scrapeMissPath`. -/
def scrapeHandler (w : World) (pc : String) : HandlerResult :=
  if w.postalReadErr then
    { response := .dbError, postal := w.postal, region := w.region,
      trace := [.readPostalStore pc] }
  else
    match findBy postalKey w.postal pc with
    | some row =>
      if isDataStale w.now row.date_retrieved then
        scrapeMissPath w pc
      else
        let ro := getEconomicRegionData w row.ei_economic_region_name row.ei_economic_region_url
        match ro.result with
        | .error _ =>
          { response := .noResponse, postal := w.postal, region := ro.store,
            trace := [.readPostalStore pc,
                      .regionLookupInvoked row.ei_economic_region_name] ++ ro.trace }
        | .ok rr =>
          { response := .ok { postal := rowToJObj row,
                              region := regionResultToJObj rr },
            postal := w.postal, region := ro.store,
            trace := [.readPostalStore pc,
                      .regionLookupInvoked row.ei_economic_region_name] ++ ro.trace }
    | none => scrapeMissPath w pc

/-- The handler takes the miss/stale path iff no row is stored under the raw
key or the stored row is stale. -/
def staleOrAbsent (w : World) (pc : String) : Bool :=
  match findBy postalKey w.postal pc with
  | none => true
  | some row => isDataStale w.now row.date_retrieved

/-- The postal row of the spec's concrete scenario (section 8), as stored. -/
def ottawaPostalRow (date : Int) : PostalRow :=
  { postal_code := "K1A0A1", census_subdivision_name := "Ottawa",
    common_name := "Ottawa", census_division_name := "Ottawa",
    ei_economic_region_name := "Ottawa",
    ei_economic_region_url := some "region/35.aspx", date_retrieved := date }

/-- The region row of the spec's concrete scenario (section 8), as stored. -/
def ottawaRegionRow (date : Int) : RegionRow :=
  { economic_region_name := "Ottawa", province := some "ON",
    economic_region_code := some "3520", unemployment_rate := some "5.6",
    insured_hours_required := some "420", min_weeks_payable := some "14",
    max_weeks_payable := some "45", best_weeks_required := some "14-22",
    date_retrieved := date }

/-- The postal detail page row of the spec's concrete scenario. -/
def ottawaCells : PostalCells :=
  { cell0 := "K1A0A1", cell1 := "Ottawa", cell2 := "Ottawa", cell3 := "Ottawa",
    anchorText := "Ottawa", anchorHref := some "region/35.aspx" }

/-- The region detail page row of the spec's concrete scenario. -/
def ottawaRegionCells : List String :=
  ["ON", "3520", "Ottawa", "5.6", "420", "14", "45", "14-22"]

/-- Empty world: empty tables, no store errors, both remote fetches fail. -/
def baseWorld : World :=
  { postal := [], region := [], postalReadErr := false, regionReadErr := false,
    postalPage := .error (), regionPage := .error (), now := 0 }

/-- True iff the trace contains a postal-upsert completion event strictly
before a region-lookup invocation: the ordering property "the postal upsert
completes before the Region Fetcher is invoked". -/
def completesBeforeRegionInvoke : List Ev → Bool
  | [] => false
  | e :: rest =>
    (e.isUpsertPostalCompleted && rest.any (fun x => x.isRegionLookupInvoked))
    || completesBeforeRegionInvoke rest

/-- World for C1: a fresh cached postal row and a failing region store read. -/
def wC1a : World :=
  { baseWorld with postal := [ottawaPostalRow 0], regionReadErr := true }

/-- World for C1: a fresh cached postal row, no cached region row, and a
failing remote region fetch. -/
def wC1b : World :=
  { baseWorld with postal := [ottawaPostalRow 0] }

/-- World for C2's illustration: fresh cached postal row, region row absent,
region page available remotely. -/
def wC2x : World :=
  { baseWorld with postal := [ottawaPostalRow 0],
                   regionPage := Except.ok [ottawaRegionCells] }

/-- World for C2's witness: fresh cached postal row and fresh cached region
row. -/
def wC2w : World :=
  { baseWorld with postal := [ottawaPostalRow 0], region := [ottawaRegionRow 0] }

/-- World for C3's counterexample: the store holds a fresh row under the
spaceless key "K1A0A1" (with a fresh region row), and the remote postal fetch
fails. -/
def wC3 : World :=
  { baseWorld with postal := [ottawaPostalRow 0], region := [ottawaRegionRow 0] }

/-- World for C4's counterexample: empty stores, the postal page fetch
succeeds but the page contains no data row, the region fetch fails. -/
def wC4 : World :=
  { baseWorld with postalPage := Except.ok [] }

/-- The postal row that C4's counterexample run writes: keyed by the raw
input, every scraped field empty, locator NULL. -/
def emptyFieldsRow (pc : String) (now : Int) : PostalRow :=
  { postal_code := pc, census_subdivision_name := "", common_name := "",
    census_division_name := "", ei_economic_region_name := "",
    ei_economic_region_url := none, date_retrieved := now }

/-- World for C6's counterexample (a): miss path, postal page fine, the only
failure is the REGION STORE READ. -/
def wC6a : World :=
  { baseWorld with postalPage := Except.ok [ottawaCells], regionReadErr := true,
                   regionPage := Except.ok [ottawaRegionCells] }

/-- World for C6's counterexample (b): identical except the only failure is
the REMOTE REGION FETCH. -/
def wC6b : World :=
  { baseWorld with postalPage := Except.ok [ottawaCells] }

/-- World for C9: a full successful miss-path run (both pages available). -/
def wC9 : World :=
  { baseWorld with postalPage := Except.ok [ottawaCells],
                   regionPage := Except.ok [ottawaRegionCells] }

/-- Witness world for C8: a full successful miss-path run at time 100. -/
def wC8w : World :=
  { baseWorld with postalPage := Except.ok [ottawaCells],
                   regionPage := Except.ok [ottawaRegionCells], now := 100 }

/-- World for C10, cache-hit side: both rows stored fresh at time 100. -/
def wHitC10 : World :=
  { baseWorld with postal := [ottawaPostalRow 100],
                   region := [ottawaRegionRow 100], now := 100 }

/-- World for C10, cache-miss side: empty stores, both remote pages carry the
same underlying data as the rows of `wHitC10`. -/
def wMissC10 : World :=
  { baseWorld with postalPage := Except.ok [ottawaCells],
                   regionPage := Except.ok [ottawaRegionCells], now := 100 }

/-- Predicate used to state that a handler run only ever addresses the store
under the raw input key and only ever fetches the postal page at the URL with
the first space removed. -/
def usesRawKeyAndStrippedUrl (pc : String) (e : Ev) : Bool :=
  match e with
  | .readPostalStore k => k == pc
  | .remoteFetchPostal url => url == missFetchUrl pc
  | .upsertPostalIssued k => k == pc
  | _ => true

theorem extractPostalData_date (page : List PostalCells) (now : Int) :
    (extractPostalData page now).date_retrieved = now := by
  cases page <;> rfl

theorem find?_map_replace {α : Type} (key : α → String) (a : α) (t : List α)
    (h : t.any (fun y => key y == key a) = true) :
    (t.map (fun x => if key x == key a then a else x)).find?
      (fun y => key y == key a) = some a := by
  induction t with
  | nil => simp at h
  | cons x t ih =>
    by_cases hx : (key x == key a) = true
    · simp only [List.map_cons, if_pos hx]
      exact List.find?_cons_of_pos _ (beq_self_eq_true _)
    · simp only [List.any_cons, hx, Bool.false_or] at h
      simp only [List.map_cons, if_neg hx]
      refine Eq.trans ?_ (ih h)
      exact List.find?_cons_of_neg _ hx

/-- Reading back the upserted key returns exactly the upserted row: every
non-key column, the retrieval timestamp included, is the new value. -/
theorem findBy_upsertBy {α : Type} (key : α → String) (s : List α) (a : α) :
    findBy key (upsertBy key s a) (key a) = some a := by
  unfold findBy upsertBy
  by_cases hb : s.any (fun x => key x == key a) = true
  · rw [if_pos hb]
    exact find?_map_replace key a s hb
  · rw [if_neg hb, List.find?_append]
    have hnone : s.find? (fun x => key x == key a) = none := by
      rw [List.find?_eq_none]
      intro x hx hpx
      exact hb (List.any_eq_true.mpr ⟨x, hx, hpx⟩)
    rw [hnone]
    simp [List.find?_cons_of_pos, beq_self_eq_true]

theorem noDupBy_iff {α : Type} (key : α → String) (s : List α) :
    noDupBy key s = true ↔ (s.map key).Nodup := by
  induction s with
  | nil => simp [noDupBy]
  | cons x t ih =>
    simp only [noDupBy, Bool.and_eq_true, Bool.not_eq_true', List.any_eq_false,
      List.map_cons, List.nodup_cons, List.mem_map, ih]
    constructor
    · rintro ⟨h1, h2⟩
      refine ⟨?_, h2⟩
      rintro ⟨y, hy, hxy⟩
      have hb := h1 y hy
      rw [Bool.not_eq_true, ← Bool.not_eq_true] at hb
      simp only [beq_iff_eq] at hb
      exact hb hxy
    · rintro ⟨h1, h2⟩
      refine ⟨?_, h2⟩
      intro y hy
      simp only [Bool.not_eq_true, ← Bool.not_eq_true, beq_iff_eq]
      intro hxy
      exact h1 ⟨y, hy, hxy⟩

theorem map_key_upsertBy {α : Type} (key : α → String) (s : List α) (a : α)
    (h : s.any (fun x => key x == key a) = true) :
    (upsertBy key s a).map key = s.map key := by
  unfold upsertBy
  rw [if_pos h, List.map_map]
  apply List.map_congr_left
  intro x _
  simp only [Function.comp]
  by_cases hx : (key x == key a) = true
  · rw [if_pos hx]
    exact (beq_iff_eq.mp hx).symm
  · rw [if_neg hx]

/-- Upserting preserves key uniqueness of the table. -/
theorem noDupBy_upsertBy {α : Type} (key : α → String) (s : List α) (a : α)
    (h : noDupBy key s = true) : noDupBy key (upsertBy key s a) = true := by
  rw [noDupBy_iff] at h ⊢
  by_cases hb : s.any (fun x => key x == key a) = true
  · rw [map_key_upsertBy key s a hb]
    exact h
  · have hb0 : s.any (fun x => key x == key a) = false :=
      Bool.eq_false_iff.mpr hb
    unfold upsertBy
    rw [if_neg hb, List.map_append, List.nodup_append]
    refine ⟨h, by simp, ?_⟩
    intro k hk hk2
    simp only [List.map_cons, List.map_nil, List.mem_singleton] at hk2
    subst hk2
    rw [List.mem_map] at hk
    obtain ⟨x, hx, hkey⟩ := hk
    have hfx := List.any_eq_false.mp hb0 x hx
    rw [Bool.not_eq_true, ← Bool.not_eq_true] at hfx
    simp only [beq_iff_eq] at hfx
    exact hfx hkey

/-- Every row of an upserted table is either an old row or the new row. -/
theorem mem_upsertBy {α : Type} (key : α → String) (s : List α) (a : α) (y : α)
    (hy : y ∈ upsertBy key s a) : y ∈ s ∨ y = a := by
  unfold upsertBy at hy
  by_cases hb : s.any (fun x => key x == key a) = true
  · rw [if_pos hb, List.mem_map] at hy
    obtain ⟨x, hx, hfx⟩ := hy
    by_cases hxx : (key x == key a) = true
    · right
      rw [if_pos hxx] at hfx
      exact hfx.symm
    · left
      rw [if_neg hxx] at hfx
      exact hfx ▸ hx
  · rw [if_neg hb, List.mem_append] at hy
    rcases hy with h | h
    · left; exact h
    · right; simpa using h

theorem all_weaken {α : Type} (p q : α → Bool) (l : List α)
    (himp : ∀ x, p x = true → q x = true) (h : l.all p = true) :
    l.all q = true := by
  rw [List.all_eq_true] at h ⊢
  exact fun x hx => himp x (h x hx)

/-- All events initiated by `getEconomicRegionData` are region-side store or
fetch operations. -/
theorem regionOut_trace_regionSide (w : World) (n : String) (u : Option String) :
    ((getEconomicRegionData w n u).trace.all Ev.isRegionSide) = true := by
  unfold getEconomicRegionData regionFetchBranch
  split
  · rfl
  · split
    · split
      · split <;> rfl
      · rfl
    · split <;> rfl

theorem region_trace_all (w : World) (n : String) (u : Option String)
    (q : Ev → Bool) (hq : ∀ e, Ev.isRegionSide e = true → q e = true) :
    ((getEconomicRegionData w n u).trace.all q) = true :=
  all_weaken _ _ _ hq (regionOut_trace_regionSide w n u)

/-- The region table after `getEconomicRegionData` is either unchanged or the
result of one region upsert whose row is stamped with the current time. -/
theorem regionOut_store_cases (w : World) (n : String) (u : Option String) :
    (getEconomicRegionData w n u).store = w.region
    ∨ ∃ d, (getEconomicRegionData w n u).store
        = upsertRegion w.region (regionRowFromData n d w.now) := by
  unfold getEconomicRegionData regionFetchBranch
  split
  · left; rfl
  · split
    · split
      · split
        · left; rfl
        · right; exact ⟨_, rfl⟩
      · left; rfl
    · split
      · left; rfl
      · right; exact ⟨_, rfl⟩

/-- The postal table after a miss-path run is either unchanged (transport
failure) or the result of one postal upsert stamped with the current time. -/
theorem missPath_postal_cases (w : World) (pc : String) :
    (scrapeMissPath w pc).postal = w.postal
    ∨ ∃ d : PostalData, d.date_retrieved = w.now ∧
        (scrapeMissPath w pc).postal = upsertPostal w.postal (postalRowFromInput pc d) := by
  unfold scrapeMissPath
  split
  · left; rfl
  · rename_i page heq
    right
    refine ⟨extractPostalData page w.now, extractPostalData_date page w.now, ?_⟩
    simp only []
    split <;> rfl

theorem regionSide_not_postal_fetch (e : Ev) (he : Ev.isRegionSide e = true) :
    (!e.isRemoteFetchPostal) = true := by
  cases e <;> simp_all [Ev.isRegionSide, Ev.isRemoteFetchPostal]

theorem regionSide_usesRawKey (pc : String) (e : Ev) (he : Ev.isRegionSide e = true) :
    usesRawKeyAndStrippedUrl pc e = true := by
  cases e <;> simp_all [Ev.isRegionSide, usesRawKeyAndStrippedUrl]

/-- Restatement of `regionOut_store_cases` in the shape the handler goals
take (name and data existentially quantified). -/
theorem regionOut_store_cases2 (w : World) (n : String) (u : Option String) :
    (getEconomicRegionData w n u).store = w.region
    ∨ ∃ m d, (getEconomicRegionData w n u).store
        = upsertRegion w.region (regionRowFromData m d w.now) := by
  rcases regionOut_store_cases w n u with h | ⟨d, h⟩
  · left; exact h
  · right; exact ⟨n, d, h⟩

theorem missPath_region_cases (w : World) (pc : String) :
    (scrapeMissPath w pc).region = w.region
    ∨ ∃ m d, (scrapeMissPath w pc).region
        = upsertRegion w.region (regionRowFromData m d w.now) := by
  unfold scrapeMissPath
  split
  · left; rfl
  · simp only []
    split
    · exact regionOut_store_cases2 w _ _
    · exact regionOut_store_cases2 w _ _

/-- The postal table after a handler run is either unchanged or the result of
one postal upsert whose row is keyed by the raw input and stamped with the
current time. -/
theorem handler_postal_cases (w : World) (pc : String) :
    (scrapeHandler w pc).postal = w.postal
    ∨ ∃ d : PostalData, d.date_retrieved = w.now ∧
        (scrapeHandler w pc).postal = upsertPostal w.postal (postalRowFromInput pc d) := by
  unfold scrapeHandler
  split
  · left; rfl
  · split
    · split
      · exact missPath_postal_cases w pc
      · simp only []
        split
        · left; rfl
        · left; rfl
    · exact missPath_postal_cases w pc

/-- The region table after a handler run is either unchanged or the result of
one region upsert whose row is stamped with the current time. -/
theorem handler_region_cases (w : World) (pc : String) :
    (scrapeHandler w pc).region = w.region
    ∨ ∃ m d, (scrapeHandler w pc).region
        = upsertRegion w.region (regionRowFromData m d w.now) := by
  unfold scrapeHandler
  split
  · left; rfl
  · split
    · split
      · exact missPath_region_cases w pc
      · simp only []
        split
        · exact regionOut_store_cases2 w _ _
        · exact regionOut_store_cases2 w _ _
    · exact missPath_region_cases w pc

theorem regionRowStep_const (acc acc' : RegionData) (cells : List String) :
    regionRowStep acc cells = regionRowStep acc' cells := rfl

/-- Claim C5 (confirmed): `isDataStale` returns true iff `now - T` is
strictly greater than 30 days, including at the exact boundary: at
29d 23h 59m 59s it returns false, at 30d 0h 0m 1s it returns true. -/
theorem isDataStale_thirty_day_boundary :
    (∀ now t : Int, isDataStale now t = true ↔ now - t > THIRTY_DAYS_IN_MS)
    ∧ isDataStale (29 * 86400000 + 23 * 3600000 + 59 * 60000 + 59 * 1000) 0 = false
    ∧ isDataStale (30 * 86400000 + 1 * 1000) 0 = true := by
  refine ⟨fun now t => ?_, by decide, by decide⟩
  simp [isDataStale]

/-- Claim C7 (confirmed): for every fetched region page whose table has at
least one data row, the walk visits every row in order, each iteration
overwriting all working fields, so the result equals what the walk produces
on the last row alone — last row wins, earlier rows are discarded. -/
theorem scrapeRegionTable_last_row_wins (rows : List (List String)) (h : rows ≠ []) :
    scrapeRegionTable rows = scrapeRegionTable [rows.getLast h] := by
  induction rows with
  | nil => exact absurd rfl h
  | cons x t ih =>
    cases t with
    | nil => rfl
    | cons y t2 =>
      have hne : (y :: t2) ≠ [] := by simp
      rw [List.getLast_cons hne, ← ih hne]
      unfold scrapeRegionTable
      simp only [List.foldl_cons]
      rw [regionRowStep_const (regionRowStep emptyRegionData x) emptyRegionData y]

/-- Witness for C7 at a concrete two-row table: the result equals the walk of
the last row alone. -/
theorem scrapeRegionTable_last_row_wins_witness :
    ([ottawaRegionCells, ["QC", "9999", "Gatineau", "7.0", "700", "15", "40", "20"]]
        : List (List String)) ≠ []
    ∧ scrapeRegionTable
        [ottawaRegionCells, ["QC", "9999", "Gatineau", "7.0", "700", "15", "40", "20"]]
      = scrapeRegionTable [["QC", "9999", "Gatineau", "7.0", "700", "15", "40", "20"]] := by
  refine ⟨by decide, ?_⟩
  exact scrapeRegionTable_last_row_wins _ (by decide)

/-- Claim C1 (code_bug): on the cache-hit path the `await` at server.js:102
sits OUTSIDE the try/catch, so when the region step fails — a region store
read error (`wC1a`) or a remote region fetch error (`wC1b`) — the promise
rejection is unhandled and the handler sends NO response at all: the caller
gets no error signal, contradicting the claimed propagation of an explicit
failure. (The other half of the claim does hold on these runs: no success
payload with a missing region detail is produced.) -/
theorem region_failure_on_hit_no_response :
    (scrapeHandler wC1a "K1A0A1").response = Response.noResponse
    ∧ (scrapeHandler wC1b "K1A0A1").response = Response.noResponse :=
  ⟨by decide, by decide⟩

/-- Claim C10 (code_bug): the same underlying Ottawa data served from a fresh
cache (`wHitC10`) and freshly scraped (`wMissC10`) yields different results:
the hit path returns the stored row under the database column names
(postal_code, census_subdivision_name, ...), the miss path returns the
scraped object under different names (PostalCode, CensusSubdivisionName,
...), and likewise for the nested region detail — so hit and miss results
for the same data are NOT equal. -/
theorem hit_and_miss_payloads_differ :
    (scrapeHandler wHitC10 "K1A0A1").response
      = Response.ok { postal := rowToJObj (ottawaPostalRow 100),
                      region := regionRowToJObj (ottawaRegionRow 100) }
    ∧ (scrapeHandler wMissC10 "K1A0A1").response
      = Response.ok { postal := postalDataToJObj (extractPostalData [ottawaCells] 100),
                      region := regionDataToJObj (scrapeRegionTable [ottawaRegionCells]) 100 }
    ∧ rowToJObj (ottawaPostalRow 100) ≠ postalDataToJObj (extractPostalData [ottawaCells] 100)
    ∧ regionRowToJObj (ottawaRegionRow 100)
      ≠ regionDataToJObj (scrapeRegionTable [ottawaRegionCells]) 100 :=
  ⟨by decide, by decide, by decide, by decide⟩

/-- Counterexample to claim C3: with a fresh record stored under "K1A0A1",
the input "K1A0A1" is served from the cache (no remote postal fetch in its
trace), while "K1A 0A1" — differing only in whitespace — misses the store and
goes to the remote source: whitespace is NOT stripped before the store read,
so the two inputs address different PostalRecords. -/
theorem whitespace_inputs_address_different_records :
    ((scrapeHandler wC3 "K1A0A1").trace.all (fun e => !e.isRemoteFetchPostal)) = true
    ∧ (scrapeHandler wC3 "K1A 0A1").trace
      = [Ev.readPostalStore "K1A 0A1",
         Ev.remoteFetchPostal (BASE_URL ++ POSTAL_CODE_ENDPOINT ++ "K1A0A1")] :=
  ⟨by decide, by decide⟩

/-- Claim C3 amended (corrected): the raw input string is used unchanged as
the store key for both the read and the upsert; only the FIRST space
character is removed before the code is embedded in the remote fetch locator
(`missFetchUrl`). In every run, every postal-store event carries the raw key
and every postal fetch uses `missFetchUrl`; and `stripFirstSpace` removes
only the first of several spaces. -/
theorem postal_key_raw_and_url_first_space_only (w : World) (pc : String) :
    ((scrapeHandler w pc).trace.all (usesRawKeyAndStrippedUrl pc)) = true
    ∧ stripFirstSpace "K1A 0A 1" = "K1A0A 1" := by
  refine ⟨?_, by decide⟩
  unfold scrapeHandler scrapeMissPath
  split
  · simp [usesRawKeyAndStrippedUrl]
  · split
    · split
      · split
        · simp [usesRawKeyAndStrippedUrl]
        · simp only []
          split <;>
            · simp [List.all_append, List.all_cons, usesRawKeyAndStrippedUrl]
              intro x hx
              exact regionSide_usesRawKey pc x
                (List.all_eq_true.mp (regionOut_trace_regionSide w _ _) x hx)
      · simp only []
        split <;>
          · simp [List.all_append, List.all_cons, usesRawKeyAndStrippedUrl]
            intro x hx
            exact regionSide_usesRawKey pc x
              (List.all_eq_true.mp (regionOut_trace_regionSide w _ _) x hx)
    · split
      · simp [usesRawKeyAndStrippedUrl]
      · simp only []
        split <;>
          · simp [List.all_append, List.all_cons, usesRawKeyAndStrippedUrl]
            intro x hx
            exact regionSide_usesRawKey pc x
              (List.all_eq_true.mp (regionOut_trace_regionSide w _ _) x hx)

/-- Witness for the amended C3 at a concrete world and a spaced input. -/
theorem postal_key_raw_and_url_first_space_only_witness :
    ((scrapeHandler wC3 "K1A 0A1").trace.all (usesRawKeyAndStrippedUrl "K1A 0A1")) = true
    ∧ stripFirstSpace "K1A 0A 1" = "K1A0A 1" :=
  postal_key_raw_and_url_first_space_only wC3 "K1A 0A1"

/-- Counterexample to claim C4: in `wC4` the remote postal fetch succeeds but
the page has no extractable data row. The code does not detect this: it
upserts a PostalRecord with empty fields anyway (and the run then fails at
the region step). So "no PostalRecord row is written" is false for the
extraction-failure case. -/
theorem empty_page_extraction_still_writes :
    (scrapeHandler wC4 "A1A1A1").response = Response.scrapeError
    ∧ (scrapeHandler wC4 "A1A1A1").postal = [emptyFieldsRow "A1A1A1" 0] :=
  ⟨by decide, by decide⟩

/-- Claim C4 amended (corrected): on the miss/stale path, if the remote
postal FETCH itself fails (transport error), the handler signals the scrape
FetchError and neither table is changed. (A successfully fetched page with no
extractable row is not detected: empty fields are written — see the
counterexample.) -/
theorem transport_failure_no_write (w : World) (pc : String)
    (h1 : w.postalReadErr = false) (h2 : staleOrAbsent w pc = true)
    (h3 : w.postalPage = Except.error ()) :
    (scrapeHandler w pc).response = Response.scrapeError
    ∧ (scrapeHandler w pc).postal = w.postal
    ∧ (scrapeHandler w pc).region = w.region := by
  unfold staleOrAbsent at h2
  rcases hf : findBy postalKey w.postal pc with _ | row
  · rw [hf] at h2
    simp [scrapeHandler, scrapeMissPath, h1, hf, h3]
  · rw [hf] at h2
    have h2' : isDataStale w.now row.date_retrieved = true := h2
    simp [scrapeHandler, scrapeMissPath, h1, hf, h2', h3]

/-- Witness for the amended C4: the empty world misses the store and its
remote postal fetch fails; the response is the scrape error and both tables
are unchanged. -/
theorem transport_failure_no_write_witness :
    baseWorld.postalReadErr = false
    ∧ staleOrAbsent baseWorld "A1A1A1" = true
    ∧ baseWorld.postalPage = Except.error ()
    ∧ ((scrapeHandler baseWorld "A1A1A1").response = Response.scrapeError
       ∧ (scrapeHandler baseWorld "A1A1A1").postal = baseWorld.postal
       ∧ (scrapeHandler baseWorld "A1A1A1").region = baseWorld.region) :=
  ⟨rfl, by decide, rfl,
   transport_failure_no_write baseWorld "A1A1A1" rfl (by decide) rfl⟩

/-- Counterexample to claim C6: in `wC6a` the ONLY failure is the region
store read; in `wC6b` the only failure is the remote region fetch. Both runs
return the same "Error scraping postal code data" signal: a store failure
inside the Region Fetcher is surfaced as a fetch/scrape error, so the caller
cannot distinguish the two. -/
theorem region_store_error_masked_as_scrape_error :
    (scrapeHandler wC6a "K1A0A1").response = Response.scrapeError
    ∧ (scrapeHandler wC6b "K1A0A1").response = Response.scrapeError :=
  ⟨by decide, by decide⟩

theorem findBy_nil {α : Type} (key : α → String) (k : String) :
    findBy key ([] : List α) k = none := rfl

/-- Claim C6 amended (corrected): only the initial POSTAL store read failure
gets the distinct store-error signal ("Database error"); a region store read
failure on the miss path is surfaced with exactly the same scrape-error
signal as a remote region fetch failure. -/
theorem error_signals_postal_store_only (w : World) (pc : String) (page : List PostalCells)
    (h1 : w.postalReadErr = false) (h2 : staleOrAbsent w pc = true)
    (h3 : w.postalPage = Except.ok page) :
    (scrapeHandler { w with postalReadErr := true } pc).response = Response.dbError
    ∧ (scrapeHandler { w with regionReadErr := true } pc).response = Response.scrapeError
    ∧ (scrapeHandler { w with regionReadErr := false, region := [], regionPage := Except.error () } pc).response = Response.scrapeError := by
  refine ⟨by simp [scrapeHandler], ?_, ?_⟩
  · unfold staleOrAbsent at h2
    rcases hf : findBy postalKey w.postal pc with _ | row
    · simp [scrapeHandler, scrapeMissPath, getEconomicRegionData, h1, hf, h3]
    · rw [hf] at h2
      have h2' : isDataStale w.now row.date_retrieved = true := h2
      simp [scrapeHandler, scrapeMissPath, getEconomicRegionData, h1, hf, h2', h3]
  · unfold staleOrAbsent at h2
    rcases hf : findBy postalKey w.postal pc with _ | row
    · simp [scrapeHandler, scrapeMissPath, getEconomicRegionData,
            regionFetchBranch, findBy_nil, h1, hf, h3]
    · rw [hf] at h2
      have h2' : isDataStale w.now row.date_retrieved = true := h2
      simp [scrapeHandler, scrapeMissPath, getEconomicRegionData,
            regionFetchBranch, findBy_nil, h1, hf, h2', h3]

/-- Witness for the amended C6 at the concrete world `wC6b`. -/
theorem error_signals_postal_store_only_witness :
    wC6b.postalReadErr = false
    ∧ staleOrAbsent wC6b "K1A0A1" = true
    ∧ wC6b.postalPage = Except.ok [ottawaCells]
    ∧ ((scrapeHandler { wC6b with postalReadErr := true } "K1A0A1").response
         = Response.dbError
       ∧ (scrapeHandler { wC6b with regionReadErr := true } "K1A0A1").response
         = Response.scrapeError
       ∧ (scrapeHandler { wC6b with regionReadErr := false, region := [], regionPage := Except.error () } "K1A0A1").response
         = Response.scrapeError) :=
  ⟨rfl, by decide, rfl,
   error_signals_postal_store_only wC6b "K1A0A1" [ottawaCells] rfl (by decide) rfl⟩

/-- Counterexample to claim C9: in the successful miss-path run on `wC9`,
the Region Fetcher IS invoked and the postal upsert IS issued, yet no
postal-upsert completion precedes the region invocation — the upsert at
server.js:127 has neither `await` nor a callback, so the handler proceeds to
the region lookup without waiting for the write to complete (in Node, the
completion can only be observed on a later event-loop tick). -/
theorem upsert_completion_not_awaited :
    completesBeforeRegionInvoke ((scrapeHandler wC9 "C1C1C1").trace) = false
    ∧ ((scrapeHandler wC9 "C1C1C1").trace.any (fun e => e.isRegionLookupInvoked)) = true
    ∧ ((scrapeHandler wC9 "C1C1C1").trace.any (fun e => e.isUpsertPostalIssued)) = true :=
  ⟨by decide, by decide, by decide⟩

/-- Claim C9 amended (corrected): on the miss/stale path the four steps are
INITIATED in the exact order — postal store read, remote postal fetch, postal
upsert issue, region lookup — but the postal upsert is fire-and-forget: only
its issuing, not its completion, precedes the Region Fetcher invocation. -/
theorem miss_path_initiation_order (w : World) (pc : String) (page : List PostalCells)
    (h1 : w.postalReadErr = false) (h2 : staleOrAbsent w pc = true)
    (h3 : w.postalPage = Except.ok page) :
    (scrapeHandler w pc).trace
      = [Ev.readPostalStore pc, Ev.remoteFetchPostal (missFetchUrl pc),
         Ev.upsertPostalIssued pc,
         Ev.regionLookupInvoked (extractPostalData page w.now).EIEconomicRegionName]
        ++ (getEconomicRegionData w (extractPostalData page w.now).EIEconomicRegionName
             (extractPostalData page w.now).EIEconomicRegionURL).trace := by
  unfold staleOrAbsent at h2
  rcases hf : findBy postalKey w.postal pc with _ | row
  · simp only [scrapeHandler, scrapeMissPath, h1, hf, h3, Bool.false_eq_true,
      if_false]
    split <;> rfl
  · rw [hf] at h2
    have h2' : isDataStale w.now row.date_retrieved = true := h2
    simp only [scrapeHandler, scrapeMissPath, h1, hf, h2', h3, Bool.false_eq_true,
      if_false, if_true]
    split <;> rfl

/-- Witness for the amended C9 at the concrete world `wC9`. -/
theorem miss_path_initiation_order_witness :
    wC9.postalReadErr = false
    ∧ staleOrAbsent wC9 "C1C1C1" = true
    ∧ wC9.postalPage = Except.ok [ottawaCells]
    ∧ (scrapeHandler wC9 "C1C1C1").trace
      = [Ev.readPostalStore "C1C1C1", Ev.remoteFetchPostal (missFetchUrl "C1C1C1"),
         Ev.upsertPostalIssued "C1C1C1",
         Ev.regionLookupInvoked (extractPostalData [ottawaCells] wC9.now).EIEconomicRegionName]
        ++ (getEconomicRegionData wC9
             (extractPostalData [ottawaCells] wC9.now).EIEconomicRegionName
             (extractPostalData [ottawaCells] wC9.now).EIEconomicRegionURL).trace :=
  ⟨rfl, by decide, rfl,
   miss_path_initiation_order wC9 "C1C1C1" [ottawaCells] rfl (by decide) rfl⟩

/-- Claim C2 (confirmed): for a stored PostalRecord whose retrieval timestamp
is within 30 days of now, looking up that key never initiates the remote
postal fetch, and any success payload reuses the stored postal fields (the
serialized stored row); the run may still fetch the remote region page when
the referenced RegionRecord is stale or absent — illustrated by the third
conjunct on `wC2x`, a cache-hit run whose trace contains a region fetch. -/
theorem cache_hit_skips_postal_fetch (w : World) (pc : String) (row : PostalRow)
    (h1 : w.postalReadErr = false)
    (h2 : findBy postalKey w.postal pc = some row)
    (h3 : w.now - row.date_retrieved ≤ THIRTY_DAYS_IN_MS) :
    ((scrapeHandler w pc).trace.all (fun e => !e.isRemoteFetchPostal)) = true
    ∧ ((scrapeHandler w pc).postalPart = none
       ∨ (scrapeHandler w pc).postalPart = some (rowToJObj row))
    ∧ ((scrapeHandler wC2x "K1A0A1").trace.any (fun e => e.isRemoteFetchRegion)) = true := by
  have hs : isDataStale w.now row.date_retrieved = false := by
    rw [isDataStale, decide_eq_false_iff_not]
    simp only [THIRTY_DAYS_IN_MS] at h3 ⊢
    omega
  refine ⟨?_, ?_, by decide⟩
  · rcases hro : (getEconomicRegionData w row.ei_economic_region_name
        row.ei_economic_region_url).result with e | rr <;>
      · simp [scrapeHandler, h1, h2, hs, hro, Ev.isRemoteFetchPostal]
        intro x hx
        have hh := regionSide_not_postal_fetch x
          (List.all_eq_true.mp (regionOut_trace_regionSide w _ _) x hx)
        simpa [Ev.isRemoteFetchPostal] using hh
  · rcases hro : (getEconomicRegionData w row.ei_economic_region_name
        row.ei_economic_region_url).result with e | rr
    · left
      simp [scrapeHandler, h1, h2, hs, hro, HandlerResult.postalPart]
    · right
      simp [scrapeHandler, h1, h2, hs, hro, HandlerResult.postalPart]

/-- Witness for C2 at `wC2w`: a fresh postal row stored under "K1A0A1". -/
theorem cache_hit_skips_postal_fetch_witness :
    wC2w.postalReadErr = false
    ∧ findBy postalKey wC2w.postal "K1A0A1" = some (ottawaPostalRow 0)
    ∧ wC2w.now - (ottawaPostalRow 0).date_retrieved ≤ THIRTY_DAYS_IN_MS
    ∧ (((scrapeHandler wC2w "K1A0A1").trace.all (fun e => !e.isRemoteFetchPostal)) = true
       ∧ ((scrapeHandler wC2w "K1A0A1").postalPart = none
          ∨ (scrapeHandler wC2w "K1A0A1").postalPart = some (rowToJObj (ottawaPostalRow 0)))
       ∧ ((scrapeHandler wC2x "K1A0A1").trace.any (fun e => e.isRemoteFetchRegion)) = true) :=
  ⟨rfl, by decide, by decide,
   cache_hit_skips_postal_fetch wC2w "K1A0A1" (ottawaPostalRow 0) rfl (by decide) (by decide)⟩

/-- Claim C8 (confirmed): both writes are upserts with
insert-or-replace-all-fields semantics — reading the upserted key back yields
exactly the new row, every non-key column including the retrieval timestamp
overwritten, no merge — and the store invariants hold after every run: at
most one PostalRecord per postal key, at most one RegionRecord per region
name, and every row present after a run either predates the run or carries
the run's retrieval timestamp (timestamps are set exactly at write time). -/
theorem upsert_overwrite_and_store_invariants (s : List PostalRow) (p : PostalRow)
    (t : List RegionRow) (r : RegionRow) (w : World) (pc : String)
    (h1 : noDupBy postalKey s = true) (h2 : noDupBy regionKey t = true)
    (h3 : noDupBy postalKey w.postal = true) (h4 : noDupBy regionKey w.region = true) :
    findBy postalKey (upsertPostal s p) p.postal_code = some p
    ∧ noDupBy postalKey (upsertPostal s p) = true
    ∧ findBy regionKey (upsertRegion t r) r.economic_region_name = some r
    ∧ noDupBy regionKey (upsertRegion t r) = true
    ∧ noDupBy postalKey (scrapeHandler w pc).postal = true
    ∧ noDupBy regionKey (scrapeHandler w pc).region = true
    ∧ ((scrapeHandler w pc).postal.all
        (fun x => decide (x ∈ w.postal) || (x.date_retrieved == w.now))) = true
    ∧ ((scrapeHandler w pc).region.all
        (fun x => decide (x ∈ w.region) || (x.date_retrieved == w.now))) = true := by
  refine ⟨findBy_upsertBy postalKey s p, noDupBy_upsertBy postalKey s p h1,
          findBy_upsertBy regionKey t r, noDupBy_upsertBy regionKey t r h2,
          ?_, ?_, ?_, ?_⟩
  · rcases handler_postal_cases w pc with h | ⟨d, hd, h⟩
    · rw [h]; exact h3
    · rw [h]; exact noDupBy_upsertBy postalKey w.postal _ h3
  · rcases handler_region_cases w pc with h | ⟨m, d, h⟩
    · rw [h]; exact h4
    · rw [h]; exact noDupBy_upsertBy regionKey w.region _ h4
  · rcases handler_postal_cases w pc with h | ⟨d, hd, h⟩
    · rw [h, List.all_eq_true]
      intro x hx
      simp [hx]
    · rw [h, List.all_eq_true]
      intro x hx
      rcases mem_upsertBy postalKey w.postal _ x hx with hm | hm
      · simp [hm]
      · subst hm
        simp [postalRowFromInput, hd]
  · rcases handler_region_cases w pc with h | ⟨m, d, h⟩
    · rw [h, List.all_eq_true]
      intro x hx
      simp [hx]
    · rw [h, List.all_eq_true]
      intro x hx
      rcases mem_upsertBy regionKey w.region _ x hx with hm | hm
      · simp [hm]
      · subst hm
        simp [regionRowFromData]

/-- Witness for C8: a same-key upsert (stale Ottawa rows overwritten by rows
stamped 50) and a full miss-path handler run on `wC8w`. -/
theorem upsert_overwrite_and_store_invariants_witness :
    (noDupBy postalKey [ottawaPostalRow 0] = true
     ∧ noDupBy regionKey [ottawaRegionRow 0] = true
     ∧ noDupBy postalKey wC8w.postal = true
     ∧ noDupBy regionKey wC8w.region = true)
    ∧ (findBy postalKey (upsertPostal [ottawaPostalRow 0] (ottawaPostalRow 50))
         (ottawaPostalRow 50).postal_code = some (ottawaPostalRow 50)
       ∧ noDupBy postalKey (upsertPostal [ottawaPostalRow 0] (ottawaPostalRow 50)) = true
       ∧ findBy regionKey (upsertRegion [ottawaRegionRow 0] (ottawaRegionRow 50))
           (ottawaRegionRow 50).economic_region_name = some (ottawaRegionRow 50)
       ∧ noDupBy regionKey (upsertRegion [ottawaRegionRow 0] (ottawaRegionRow 50)) = true
       ∧ noDupBy postalKey (scrapeHandler wC8w "K1A0A1").postal = true
       ∧ noDupBy regionKey (scrapeHandler wC8w "K1A0A1").region = true
       ∧ ((scrapeHandler wC8w "K1A0A1").postal.all
           (fun x => decide (x ∈ wC8w.postal) || (x.date_retrieved == wC8w.now))) = true
       ∧ ((scrapeHandler wC8w "K1A0A1").region.all
           (fun x => decide (x ∈ wC8w.region) || (x.date_retrieved == wC8w.now))) = true) :=
  ⟨⟨by decide, by decide, by decide, by decide⟩,
   upsert_overwrite_and_store_invariants [ottawaPostalRow 0] (ottawaPostalRow 50)
     [ottawaRegionRow 0] (ottawaRegionRow 50) wC8w "K1A0A1"
     (by decide) (by decide) (by decide) (by decide)⟩
